import Mathlib

/-!
Verification of the Logelse Node.js SDK client (`src/client.ts` and the
related client variant) against its natural-language specification.

The embedding below translates the client's pure logic into Lean:

* `validateLogEntry` — the entry validator (field presence / type / emptiness
  checks followed by a timestamp-parse check).  `Date.parse` is a host API,
  so parseability is abstracted as a Boolean predicate parameter.
* `handleError` — the error classifier for values thrown by the transport.
  JavaScript values thrown by axios are modelled by the `ThrownError`
  structure; JS truthiness of a string is `s ≠ ""`.
* `sendWithRetryLoop` / `sendWithRetry` — the retry core.  The `for` loop
  over `attempt = 1 .. retryAttempts` is expressed as structural recursion
  on the number of remaining iterations, keeping the `attempt` counter
  explicit.  All observable actions (transport calls, inter-attempt delays,
  debug console lines) are recorded in an event trace.
* `log`, `logBatch` — validation gates in front of the retry core.
  `Promise.all` dispatch in `logBatch` is modelled sequentially (entry
  order); the claims under verification concern only the validation phase
  that precedes all dispatch and the aggregated result.
* `resolveOptions` — the constructor's option-defaulting (`x || default`),
  with JS falsiness of the supplied value modelled per type
  (`""` for strings, `0` for numbers, `false` for booleans; an absent
  option is `none`).
-/

set_option autoImplicit false

namespace Logelse

/-- A JavaScript value sitting in a field of a candidate log entry:
either a string or some non-string value.  The validator's check
`!entry.f || typeof entry.f !== 'string'` fails on every non-string and on
the empty string (falsy), so non-strings need no further structure. -/
inductive JsVal where
  | str (s : String)
  | nonString
  deriving DecidableEq, Repr

/-- A candidate log entry object: each of the five `LogEntry` fields may be
absent (`none`, i.e. `undefined` in JS) or hold a value. -/
structure CandidateEntry where
  timestamp : Option JsVal
  log_level : Option JsVal
  message : Option JsVal
  app_name : Option JsVal
  app_uuid : Option JsVal
  deriving DecidableEq, Repr

/-- A candidate argument to `log`: either not a (non-null) object at all, or
an object with the five optional fields. -/
inductive Candidate where
  | notObject
  | obj (e : CandidateEntry)
  deriving DecidableEq, Repr

/-- The test `!entry.f || typeof entry.f !== 'string'` passes (does not
throw) exactly when the field holds a truthy string, i.e. a non-empty
string. -/
def fieldOk : Option JsVal → Bool
  | some (JsVal.str s) => s ≠ ""
  | _ => false

/-- The string content of a field, for use after `fieldOk` has passed. -/
def strOf : Option JsVal → String
  | some (JsVal.str s) => s
  | _ => ""

/-- Embedding of `validateLogEntry` (client variant, lines 119-145).
`dateParseOk ts = true` models `!isNaN(Date.parse(ts))`; `Date.parse` is a
host API, abstracted as a predicate parameter.  Returns the thrown error
message, or `()` when validation passes. -/
def validateLogEntry (dateParseOk : String → Bool) (entry : Candidate) :
    Except String Unit :=
  match entry with
  | Candidate.notObject => Except.error "Log entry must be an object"
  | Candidate.obj e =>
    if !fieldOk e.timestamp then
      Except.error "Field 'timestamp' is required and must be a string"
    else if !fieldOk e.log_level then
      Except.error "Field 'log_level' is required and must be a string"
    else if !fieldOk e.message then
      Except.error "Field 'message' is required and must be a string"
    else if !fieldOk e.app_name then
      Except.error "Field 'app_name' is required and must be a string"
    else if !fieldOk e.app_uuid then
      Except.error "Field 'app_uuid' is required and must be a string"
    else if !dateParseOk (strOf e.timestamp) then
      Except.error "Timestamp must be a valid ISO 8601 date string"
    else
      Except.ok ()

/-- The `message` field of a truthy response body, as an arbitrary JS
value: the two attributes `handleError` consumes are its truthiness
(tested by `data && data.message`) and its template-literal
stringification `${data.message}`.  An absent field is `undefined`
(`⟨false, "undefined"⟩`); a number 42 is `⟨true, "42"⟩`; a string `s` is
`⟨s ≠ "", s⟩` (`BodyMessage.ofString`). -/
structure BodyMessage where
  truthy : Bool
  asString : String
  deriving DecidableEq, Repr

/-- The body-message value of a string `message` field: truthy exactly
when non-empty, stringified to itself. -/
def BodyMessage.ofString (s : String) : BodyMessage :=
  { truthy := s ≠ "", asString := s }

/-- The `response` object of an axios error: HTTP status and the response
body.  `dataMessage = none` models falsy `data`; `dataMessage = some bm`
models truthy `data` whose `message` field is the value `bm` (absent
fields read as the falsy `undefined`). -/
structure AxiosResponse where
  status : Nat
  dataMessage : Option BodyMessage
  deriving DecidableEq, Repr

/-- A value thrown by the transport, as inspected by `handleError`:
whether `axios.isAxiosError` holds, the optional `response`, whether a
`request` object is present, the `message` property, whether the value is
an `instanceof Error`, and `String(error)` for non-Error values. -/
structure ThrownError where
  isAxiosError : Bool
  response : Option AxiosResponse
  hasRequest : Bool
  message : String
  isErrorInstance : Bool
  stringOf : String
  deriving DecidableEq, Repr

/-- Embedding of `handleError` (client.ts lines 146-167), returning the
message of the classified `Error`.  `data && data.message` requires truthy
`data` and a truthy `message` field; the body-message branch interpolates
`${data.message}` into the template, stringifying any value. -/
def handleError (error : ThrownError) : String :=
  let msg := error.message
  if error.isAxiosError then
    match error.response with
    | some resp =>
      let status := resp.status
      match resp.dataMessage with
      | some bm =>
        let bmStr := bm.asString
        if bm.truthy then s!"HTTP {status}: {bmStr}"
        else s!"HTTP {status}: {msg}"
      | none => s!"HTTP {status}: {msg}"
    | none =>
      if error.hasRequest then s!"Network error: {msg}"
      else if error.isErrorInstance then msg else error.stringOf
  else if error.isErrorInstance then msg else error.stringOf

/-- The resolved, immutable client options
(`Required<LogelseClientOptions>` stored as `this.options`). -/
structure RequiredOptions where
  baseUrl : String
  timeout : Nat
  retryAttempts : Nat
  retryDelay : Nat
  debug : Bool
  deriving DecidableEq, Repr

/-- The constructor's options argument: every field optional. -/
structure LogelseClientOptions where
  baseUrl : Option String
  timeout : Option Nat
  retryAttempts : Option Nat
  retryDelay : Option Nat
  debug : Option Bool
  deriving DecidableEq, Repr

/-- JS `v || d` for an optional string option: `""` is falsy. -/
def jsOrString (v : Option String) (d : String) : String :=
  match v with
  | some s => if s = "" then d else s
  | none => d

/-- JS `v || d` for an optional number option: `0` is falsy
(numbers here are the non-negative durations/counts of the config). -/
def jsOrNat (v : Option Nat) (d : Nat) : Nat :=
  match v with
  | some x => if x = 0 then d else x
  | none => d

/-- JS `v || d` for an optional boolean option: `false` is falsy. -/
def jsOrBool (v : Option Bool) (d : Bool) : Bool :=
  match v with
  | some b => if b then true else d
  | none => d

/-- Embedding of the constructor's option resolution (client.ts lines
36-42): each option defaulted by `||`.  The result is a plain value, so it
is immutable for the client's lifetime by construction. -/
def resolveOptions (o : LogelseClientOptions) : RequiredOptions :=
  { baseUrl := jsOrString o.baseUrl "https://ingst.logelse.com"
    timeout := jsOrNat o.timeout 5000
    retryAttempts := jsOrNat o.retryAttempts 3
    retryDelay := jsOrNat o.retryDelay 1000
    debug := jsOrBool o.debug false }

/-- The message of the aggregate error thrown when all attempts failed:
`Failed to send log after ${retryAttempts} attempts: ${lastError.message}`. -/
def failMsg (n : Nat) (lastError : String) : String :=
  s!"Failed to send log after {n} attempts: {lastError}"

/-- The message of the error rethrown by the batch validation loop:
`Invalid log entry at index ${index}: ${errorMessage}`. -/
def batchIndexMsg (i : Nat) (m : String) : String :=
  s!"Invalid log entry at index {i}: {m}"

/-- The outcome of one transport call (`httpClient.post`): a 2xx-style
success carrying the response status, or a thrown failure. -/
inductive TransportResult where
  | success (status : Nat)
  | failure (error : ThrownError)
  deriving DecidableEq, Repr

/-- An observable event of the client: a transport call (tagged with the
1-based attempt number), an inter-attempt delay of `ms` milliseconds, or a
debug console line. -/
inductive Event where
  | call (attempt : Nat)
  | delay (ms : Nat)
  | debugLog (msg : String)
  deriving DecidableEq, Repr

/-- Embedding of the `for` loop of `sendWithRetry` (client.ts lines
112-135).  `attempt` is the loop counter (starting at 1), `remaining` the
number of loop iterations still allowed (`retryAttempts - attempt + 1`),
`lastError` the message of the error recorded so far (initially
`"Unknown error"`).  The transport's behaviour is a function from the
attempt number to that call's outcome.  Returns the overall result
(success, or the message of the thrown aggregate error) together with the
trace of events performed. -/
def sendWithRetryLoop (opts : RequiredOptions) (endpoint : String)
    (transport : Nat → TransportResult) (attempt remaining : Nat)
    (lastError : String) : Except String Unit × List Event :=
  match remaining with
  | 0 =>
    (Except.error (failMsg opts.retryAttempts lastError), [])
  | r + 1 =>
    let n := opts.retryAttempts
    let pre := if opts.debug then
      [Event.debugLog s!"[Logelse] Attempt {attempt}/{n} - Sending log to {endpoint}"]
      else []
    match transport attempt with
    | TransportResult.success status =>
      let post := if opts.debug then
        [Event.debugLog s!"[Logelse] Log sent successfully: {status}"]
        else []
      (Except.ok (), pre ++ [Event.call attempt] ++ post)
    | TransportResult.failure e =>
      let msg := handleError e
      if attempt < n then
        let d := opts.retryDelay
        let note := if opts.debug then
          [Event.debugLog s!"[Logelse] Attempt {attempt} failed, retrying in {d}ms..."]
          else []
        let rest := sendWithRetryLoop opts endpoint transport (attempt + 1) r msg
        (rest.1, pre ++ [Event.call attempt] ++ note ++ [Event.delay d] ++ rest.2)
      else
        (Except.error (failMsg n msg), pre ++ [Event.call attempt])

/-- Embedding of `sendWithRetry` (client.ts lines 109-139): run the loop
from attempt 1 with `retryAttempts` iterations available and
`lastError = Error('Unknown error')`. -/
def sendWithRetry (opts : RequiredOptions) (endpoint : String)
    (transport : Nat → TransportResult) : Except String Unit × List Event :=
  sendWithRetryLoop opts endpoint transport 1 opts.retryAttempts "Unknown error"

/-- Embedding of `log` (client variant, lines 46-49): validate, then send
with retry to `/logs`.  A validation failure is thrown synchronously, so
the trace is empty in that case. -/
def log (opts : RequiredOptions) (dateParseOk : String → Bool)
    (transport : Nat → TransportResult) (entry : Candidate) :
    Except String Unit × List Event :=
  match validateLogEntry dateParseOk entry with
  | Except.error m => (Except.error m, [])
  | Except.ok _ => sendWithRetry opts "/logs" transport

/-- The batch pre-flight loop (`entries.forEach` with rethrow): index and
validation message of the first invalid entry, `i` being the index of the
head of the remaining list. -/
def firstInvalidAux (dateParseOk : String → Bool) :
    List Candidate → Nat → Option (Nat × String)
  | [], _ => none
  | e :: rest, i =>
    match validateLogEntry dateParseOk e with
    | Except.error m => some (i, m)
    | Except.ok _ => firstInvalidAux dateParseOk rest (i + 1)

/-- Embedding of `logBatch` (client variant, lines 56-73): reject an empty
array, validate every entry (rethrowing the first failure with its index),
then dispatch each entry through `sendWithRetry`.  The `Promise.all`
dispatch is modelled sequentially in entry order: the transport behaviour
takes the entry's index and the attempt number, the aggregate result is
the first per-entry error in that order, and the traces are
concatenated. -/
def logBatch (opts : RequiredOptions) (dateParseOk : String → Bool)
    (transport : Nat → Nat → TransportResult) (entries : List Candidate) :
    Except String Unit × List Event :=
  if entries.isEmpty then
    (Except.error "Entries must be a non-empty array", [])
  else
    match firstInvalidAux dateParseOk entries 0 with
    | some (i, m) =>
      (Except.error (batchIndexMsg i m), [])
    | none =>
      let results := (List.range entries.length).map
        (fun j => sendWithRetry opts "/logs" (transport j))
      (results.foldl
        (fun acc r =>
          match acc with
          | Except.error m => Except.error m
          | Except.ok _ => r.1)
        (Except.ok ()),
       results.foldr (fun r acc => r.2 ++ acc) [])

/-- Whether an event is a debug console line. -/
def isDebugLog : Event → Bool
  | Event.debugLog _ => true
  | _ => false

/-- Whether an event is a transport call. -/
def isCall : Event → Bool
  | Event.call _ => true
  | _ => false

/-- The transport calls and delays of a trace, with debug lines removed. -/
def callsAndDelays (tr : List Event) : List Event :=
  tr.filter (fun e => !isDebugLog e)

/-- The number of transport calls in a trace. -/
def callCount (tr : List Event) : Nat :=
  (tr.filter isCall).length

/-- The calls-and-delays trace of `k` consecutive failed attempts starting
at attempt number `a`, each followed by a delay of `d` ms:
`call a, delay d, call (a+1), delay d, …, call (a+k-1), delay d`. -/
def failRun (d a : Nat) : Nat → List Event
  | 0 => []
  | k + 1 => Event.call a :: Event.delay d :: failRun d (a + 1) k

@[simp] theorem callsAndDelays_nil : callsAndDelays [] = [] := rfl

@[simp] theorem callsAndDelays_cons_call (a : Nat) (tr : List Event) :
    callsAndDelays (Event.call a :: tr) = Event.call a :: callsAndDelays tr := rfl

@[simp] theorem callsAndDelays_cons_delay (d : Nat) (tr : List Event) :
    callsAndDelays (Event.delay d :: tr) = Event.delay d :: callsAndDelays tr := rfl

@[simp] theorem callsAndDelays_cons_debug (s : String) (tr : List Event) :
    callsAndDelays (Event.debugLog s :: tr) = callsAndDelays tr := rfl

@[simp] theorem callsAndDelays_append (l₁ l₂ : List Event) :
    callsAndDelays (l₁ ++ l₂) = callsAndDelays l₁ ++ callsAndDelays l₂ :=
  List.filter_append _ _

@[simp] theorem callsAndDelays_debugIf (b : Bool) (s : String) :
    callsAndDelays (if b then [Event.debugLog s] else []) = [] := by
  cases b <;> rfl

@[simp] theorem callCount_nil : callCount [] = 0 := rfl

@[simp] theorem callCount_cons_call (a : Nat) (tr : List Event) :
    callCount (Event.call a :: tr) = callCount tr + 1 := rfl

@[simp] theorem callCount_cons_delay (d : Nat) (tr : List Event) :
    callCount (Event.delay d :: tr) = callCount tr := rfl

@[simp] theorem callCount_cons_debug (s : String) (tr : List Event) :
    callCount (Event.debugLog s :: tr) = callCount tr := rfl

@[simp] theorem callCount_append (l₁ l₂ : List Event) :
    callCount (l₁ ++ l₂) = callCount l₁ + callCount l₂ := by
  simp [callCount, List.filter_append]

@[simp] theorem callCount_debugIf (b : Bool) (s : String) :
    callCount (if b then [Event.debugLog s] else []) = 0 := by
  cases b <;> rfl

@[simp] theorem callCount_failRun (d a k : Nat) :
    callCount (failRun d a k) = k := by
  induction k generalizing a with
  | zero => rfl
  | succ k ih => simp [failRun, ih]

theorem callCount_callsAndDelays (tr : List Event) :
    callCount (callsAndDelays tr) = callCount tr := by
  induction tr with
  | nil => rfl
  | cons e tr ih => cases e <;> simp [ih]

theorem failRun_succ (d a k : Nat) :
    failRun d a (k + 1) = Event.call a :: Event.delay d :: failRun d (a + 1) k := rfl

theorem failRun_eq_cons (d a r : Nat) (h : 1 ≤ r) :
    failRun d a r = Event.call a :: Event.delay d :: failRun d (a + 1) (r - 1) := by
  obtain ⟨r', rfl⟩ : ∃ r', r = r' + 1 := ⟨r - 1, by omega⟩
  simp [failRun_succ]

/-- Invariant form of the retry loop on a transport that fails on the first
`k` attempts after `a` and succeeds on attempt `a + k`: the loop succeeds
and its calls-and-delays trace is `k` failed attempts (each followed by a
delay) and then the successful call. -/
theorem sendWithRetryLoop_success (opts : RequiredOptions) (ep : String)
    (transport : Nat → TransportResult) (errAt : Nat → ThrownError) :
    ∀ (k a r : Nat) (le : String),
      a + r = opts.retryAttempts + 1 → k < r →
      (∀ i, a ≤ i → i < a + k → transport i = TransportResult.failure (errAt i)) →
      (∃ s, transport (a + k) = TransportResult.success s) →
      (sendWithRetryLoop opts ep transport a r le).1 = Except.ok () ∧
      callsAndDelays (sendWithRetryLoop opts ep transport a r le).2 =
        failRun opts.retryDelay a k ++ [Event.call (a + k)] := by
  intro k
  induction k with
  | zero =>
    intro a r le hinv hkr _ hsucc
    obtain ⟨s, hs⟩ := hsucc
    obtain ⟨r', rfl⟩ : ∃ r', r = r' + 1 := ⟨r - 1, by omega⟩
    rw [Nat.add_zero] at hs
    simp [sendWithRetryLoop, hs, failRun]
  | succ k ih =>
    intro a r le hinv hkr hfail hsucc
    obtain ⟨r', rfl⟩ : ∃ r', r = r' + 1 := ⟨r - 1, by omega⟩
    have hfa : transport a = TransportResult.failure (errAt a) :=
      hfail a (Nat.le_refl a) (by omega)
    have ha : a < opts.retryAttempts := by omega
    have hidx : a + (k + 1) = a + 1 + k := by omega
    rw [hidx] at hsucc ⊢
    have hrec := ih (a + 1) r' (handleError (errAt a)) (by omega) (by omega)
      (fun i h1 h2 => hfail i (by omega) (by omega)) hsucc
    simp only [sendWithRetryLoop, hfa, if_pos ha]
    refine ⟨hrec.1, ?_⟩
    simp [hrec.2, failRun_succ]

/-- Invariant form of the retry loop on a transport that fails on every
attempt: the loop exhausts all remaining attempts, surfaces the aggregate
error built from the last classified failure, and its calls-and-delays
trace is the failed attempts with delays strictly between them. -/
theorem sendWithRetryLoop_allFail (opts : RequiredOptions) (ep : String)
    (transport : Nat → TransportResult) (errAt : Nat → ThrownError)
    (hfail : ∀ i, transport i = TransportResult.failure (errAt i)) :
    ∀ (r a : Nat) (le : String),
      a + r = opts.retryAttempts + 1 → 1 ≤ r →
      (sendWithRetryLoop opts ep transport a r le).1 =
        Except.error
          (failMsg opts.retryAttempts (handleError (errAt opts.retryAttempts))) ∧
      callsAndDelays (sendWithRetryLoop opts ep transport a r le).2 =
        failRun opts.retryDelay a (r - 1) ++ [Event.call opts.retryAttempts] := by
  intro r
  induction r with
  | zero => intro a le _ h1; exact absurd h1 (by omega)
  | succ r ih =>
    intro a le hinv _
    by_cases ha : a < opts.retryAttempts
    · have hr1 : 1 ≤ r := by omega
      have hrec := ih (a + 1) (handleError (errAt a)) (by omega) hr1
      simp only [sendWithRetryLoop, hfail a, if_pos ha]
      refine ⟨hrec.1, ?_⟩
      rw [Nat.add_sub_cancel, failRun_eq_cons opts.retryDelay a r hr1]
      simp [hrec.2]
    · have haeq : a = opts.retryAttempts := by omega
      simp only [sendWithRetryLoop, hfail a, if_neg ha]
      have hr0 : r = 0 := by omega
      subst haeq hr0
      simp [failRun, failMsg]

/-- The retry loop never performs more transport calls than it has
remaining iterations. -/
theorem sendWithRetryLoop_callCount_le (opts : RequiredOptions) (ep : String)
    (transport : Nat → TransportResult) :
    ∀ (r a : Nat) (le : String),
      callCount (sendWithRetryLoop opts ep transport a r le).2 ≤ r := by
  intro r
  induction r with
  | zero => intro a le; simp [sendWithRetryLoop]
  | succ r ih =>
    intro a le
    cases htr : transport a with
    | success s => simp [sendWithRetryLoop, htr]
    | failure e =>
      by_cases ha : a < opts.retryAttempts
      · simp only [sendWithRetryLoop, htr, if_pos ha]
        simpa using Nat.add_le_add_right (ih (a + 1) (handleError e)) 1
      · simp [sendWithRetryLoop, htr, if_neg ha]

/-- An axios error for an HTTP 400 response whose body is
`{message: "Bad Request"}`. -/
def err400 : ThrownError :=
  { isAxiosError := true
    response := some { status := 400,
                       dataMessage := some (BodyMessage.ofString "Bad Request") }
    hasRequest := true
    message := "Request failed with status code 400"
    isErrorInstance := true
    stringOf := "AxiosError: Request failed with status code 400" }

/-- An axios error with a request but no response (network failure). -/
def errNet : ThrownError :=
  { isAxiosError := true
    response := none
    hasRequest := true
    message := "timeout of 5000ms exceeded"
    isErrorInstance := true
    stringOf := "AxiosError: timeout of 5000ms exceeded" }

/-- The options resolved from an empty options object: all defaults. -/
def optsDefault : RequiredOptions :=
  resolveOptions { baseUrl := none, timeout := none, retryAttempts := none,
                   retryDelay := none, debug := none }

/-- C1: with `retryAttempts = n` and a transport that fails on exactly the
first `k` attempts (`k < n`) and succeeds on attempt `k + 1`,
`sendWithRetry` makes exactly `k + 1` transport calls, returns success, and
performs no delay after the final successful call (its calls-and-delays
trace is `k` call/delay pairs followed by the bare successful call); and
for every transport, at most `retryAttempts` calls are ever made. -/
theorem sendWithRetry_failStreakThenSuccess (opts : RequiredOptions)
    (ep : String) (transport : Nat → TransportResult)
    (errAt : Nat → ThrownError) (k : Nat)
    (hk : k + 1 ≤ opts.retryAttempts)
    (hfail : ∀ i, 1 ≤ i → i ≤ k → transport i = TransportResult.failure (errAt i))
    (hsucc : ∃ s, transport (k + 1) = TransportResult.success s) :
    (sendWithRetry opts ep transport).1 = Except.ok () ∧
    callCount (sendWithRetry opts ep transport).2 = k + 1 ∧
    callsAndDelays (sendWithRetry opts ep transport).2 =
      failRun opts.retryDelay 1 k ++ [Event.call (k + 1)] ∧
    (∀ t : Nat → TransportResult,
      callCount (sendWithRetry opts ep t).2 ≤ opts.retryAttempts) := by
  have h := sendWithRetryLoop_success opts ep transport errAt k 1
    opts.retryAttempts "Unknown error" (by omega) (by omega)
    (fun i h1 h2 => hfail i h1 (by omega))
    (by rw [Nat.add_comm 1 k]; exact hsucc)
  simp only [sendWithRetry]
  refine ⟨h.1, ?_, ?_, ?_⟩
  · rw [← callCount_callsAndDelays, h.2]
    simp
  · rw [h.2, Nat.add_comm 1 k]
  · intro t
    exact sendWithRetryLoop_callCount_le opts ep t opts.retryAttempts 1
      "Unknown error"

/-- C1 witness: with the default options (`retryAttempts = 3`) and a
transport that fails on attempts 1 and 2 and succeeds on attempt 3
(`k = 2`), the send succeeds, makes exactly 3 calls, and the trace is
call, delay, call, delay, call. -/
theorem sendWithRetry_failStreakThenSuccess_witness :
    (sendWithRetry optsDefault "/logs"
      (fun i => if i ≤ 2 then TransportResult.failure errNet
                else TransportResult.success 200)).1 = Except.ok () ∧
    callCount (sendWithRetry optsDefault "/logs"
      (fun i => if i ≤ 2 then TransportResult.failure errNet
                else TransportResult.success 200)).2 = 3 := by
  have h := sendWithRetry_failStreakThenSuccess optsDefault "/logs"
    (fun i => if i ≤ 2 then TransportResult.failure errNet
              else TransportResult.success 200)
    (fun _ => errNet) 2 (by decide)
    (by intro i h1 h2; interval_cases i <;> rfl)
    ⟨200, by rfl⟩
  exact ⟨h.1, h.2.1⟩

/-- C2: with `retryAttempts = n ≥ 1` and a transport that fails on every
attempt, `sendWithRetry` makes exactly `n` transport calls, waits
`retryDelay` between each consecutive pair of attempts and not after the
last failed attempt (the calls-and-delays trace is `n - 1` call/delay
pairs followed by the bare final call), and fails with the aggregate
message carrying the attempt count `n` and the last classified error
message. -/
theorem sendWithRetry_allFail (opts : RequiredOptions) (ep : String)
    (transport : Nat → TransportResult) (errAt : Nat → ThrownError)
    (hn : 1 ≤ opts.retryAttempts)
    (hfail : ∀ i, transport i = TransportResult.failure (errAt i)) :
    (sendWithRetry opts ep transport).1 =
      Except.error
        (failMsg opts.retryAttempts (handleError (errAt opts.retryAttempts))) ∧
    callCount (sendWithRetry opts ep transport).2 = opts.retryAttempts ∧
    callsAndDelays (sendWithRetry opts ep transport).2 =
      failRun opts.retryDelay 1 (opts.retryAttempts - 1) ++
        [Event.call opts.retryAttempts] := by
  have h := sendWithRetryLoop_allFail opts ep transport errAt hfail
    opts.retryAttempts 1 "Unknown error" (by omega) hn
  simp only [sendWithRetry]
  refine ⟨h.1, ?_, ?_⟩
  · rw [← callCount_callsAndDelays, h.2]
    simp
    omega
  · exact h.2

/-- C2 witness: with the default options (`retryAttempts = 3`,
`retryDelay = 1000`) and a transport that always fails with a network
error, the send makes 3 calls, the trace is call, delay, call, delay,
call, and the aggregate message carries the count 3 and the classified
network-error message. -/
theorem sendWithRetry_allFail_witness :
    (sendWithRetry optsDefault "/logs"
      (fun _ => TransportResult.failure errNet)).1 =
      Except.error
        "Failed to send log after 3 attempts: Network error: timeout of 5000ms exceeded" ∧
    callCount (sendWithRetry optsDefault "/logs"
      (fun _ => TransportResult.failure errNet)).2 = 3 ∧
    callsAndDelays (sendWithRetry optsDefault "/logs"
      (fun _ => TransportResult.failure errNet)).2 =
      [Event.call 1, Event.delay 1000, Event.call 2, Event.delay 1000,
       Event.call 3] := by
  have h := sendWithRetry_allFail optsDefault "/logs"
    (fun _ => TransportResult.failure errNet) (fun _ => errNet)
    (by decide) (fun _ => rfl)
  exact ⟨h.1, h.2.1, h.2.2⟩

/-- C3: with `retryAttempts = 3` and a transport that on every attempt
fails with an HTTP 400 response whose body is `{message: "Bad Request"}`,
the error surfaced by `sendWithRetry` has message text exactly
`"Failed to send log after 3 attempts: HTTP 400: Bad Request"`. -/
theorem sendWithRetry_http400_finalText :
    (sendWithRetry optsDefault "/logs"
      (fun _ => TransportResult.failure err400)).1 =
      Except.error
        "Failed to send log after 3 attempts: HTTP 400: Bad Request" := by
  rfl

/-- C4 counterexample: an axios error whose server response body *does*
have a `message` field, but an empty one (`{message: ""}`).  The claim
prescribes the body-message form `"HTTP 500: "`, yet `handleError` — whose
guard `data && data.message` tests JS truthiness, and `""` is falsy —
falls back to the axios error message instead. -/
theorem handleError_emptyBodyMessage_cex :
    handleError
      { isAxiosError := true
        response := some { status := 500,
                           dataMessage := some (BodyMessage.ofString "") }
        hasRequest := true
        message := "Request failed with status code 500"
        isErrorInstance := true
        stringOf := "AxiosError: Request failed with status code 500" } =
      "HTTP 500: Request failed with status code 500" ∧
    "HTTP 500: Request failed with status code 500" ≠ "HTTP 500: " := by
  exact ⟨rfl, by decide⟩

/-- C4 (amended): `handleError` classifies a failure as follows.  For an
axios error carrying a server response: when the response body and its
`message` field are truthy — for a string message, truthy means
non-empty — the classified message is `"HTTP {status}: {body message}"`
with the body message interpolated (converted to a string, so
`{message: 42}` gives `"HTTP {status}: 42"`); otherwise (falsy body, or
absent or otherwise falsy `message` field, the empty string included)
`"HTTP {status}: {axios error message}"`.  For an axios error with a
request but no response: `"Network error: {axios error message}"`.  For
any other value (including an axios error with neither response nor
request): the original error when it is an `Error` instance — preserving
its original message — and otherwise the value converted to a string,
wrapped in an `Error`. -/
theorem handleError_classification (status : Nat) (bm : Option BodyMessage)
    (msg srep bs : String) (hasReq isErr : Bool) (resp : Option AxiosResponse) :
    (bm = some ⟨true, bs⟩ →
      handleError ⟨true, some ⟨status, bm⟩, hasReq, msg, isErr, srep⟩ =
        s!"HTTP {status}: {bs}") ∧
    (bm = some ⟨false, bs⟩ ∨ bm = none →
      handleError ⟨true, some ⟨status, bm⟩, hasReq, msg, isErr, srep⟩ =
        s!"HTTP {status}: {msg}") ∧
    (∀ m, m ≠ "" →
      handleError ⟨true, some ⟨status, some (BodyMessage.ofString m)⟩,
          hasReq, msg, isErr, srep⟩ = s!"HTTP {status}: {m}") ∧
    (handleError ⟨true, some ⟨status, some (BodyMessage.ofString "")⟩,
        hasReq, msg, isErr, srep⟩ = s!"HTTP {status}: {msg}") ∧
    (handleError ⟨true, none, true, msg, isErr, srep⟩ =
      s!"Network error: {msg}") ∧
    (handleError ⟨true, none, false, msg, true, srep⟩ = msg) ∧
    (handleError ⟨true, none, false, msg, false, srep⟩ = srep) ∧
    (handleError ⟨false, resp, hasReq, msg, true, srep⟩ = msg) ∧
    (handleError ⟨false, resp, hasReq, msg, false, srep⟩ = srep) := by
  refine ⟨?_, ?_, ?_, ?_, rfl, rfl, rfl, rfl, rfl⟩
  · intro hbm
    subst hbm
    simp [handleError]
  · intro hbm
    rcases hbm with h | h <;> subst h <;> simp [handleError]
  · intro m hm
    simp [handleError, BodyMessage.ofString, hm]
  · simp [handleError, BodyMessage.ofString]

/-- C4 witness: a 500 response whose body is `{message: 42}` — a truthy
non-string `message` field, stringified to `"42"` — is classified as
`"HTTP 500: 42"`. -/
theorem handleError_classification_witness :
    handleError ⟨true, some ⟨500, some ⟨true, "42"⟩⟩, true,
        "Request failed with status code 500", true,
        "AxiosError: Request failed with status code 500"⟩ =
      "HTTP 500: 42" := by
  exact (handleError_classification 500 (some ⟨true, "42"⟩)
    "Request failed with status code 500"
    "AxiosError: Request failed with status code 500" "42" true true none).1
    rfl

/-- C5: `validateLogEntry` checks in a fixed order — first that the entry
is a non-null object, then for each of `timestamp`, `log_level` (the level
field), `message`, `app_name`, `app_uuid` in that order that the field is
a non-empty string — failing with a field-specific message at the first
violation found (short-circuit); only after all five field checks pass
does it parse the timestamp as a date, and an unparseable timestamp fails
with the distinct invalid-timestamp-format error even though all five
fields are non-empty strings. -/
theorem validateLogEntry_fixedOrder (dp : String → Bool) (c : CandidateEntry) :
    (validateLogEntry dp Candidate.notObject =
      Except.error "Log entry must be an object") ∧
    (fieldOk c.timestamp = false →
      validateLogEntry dp (Candidate.obj c) =
        Except.error "Field 'timestamp' is required and must be a string") ∧
    (fieldOk c.timestamp = true → fieldOk c.log_level = false →
      validateLogEntry dp (Candidate.obj c) =
        Except.error "Field 'log_level' is required and must be a string") ∧
    (fieldOk c.timestamp = true → fieldOk c.log_level = true →
      fieldOk c.message = false →
      validateLogEntry dp (Candidate.obj c) =
        Except.error "Field 'message' is required and must be a string") ∧
    (fieldOk c.timestamp = true → fieldOk c.log_level = true →
      fieldOk c.message = true → fieldOk c.app_name = false →
      validateLogEntry dp (Candidate.obj c) =
        Except.error "Field 'app_name' is required and must be a string") ∧
    (fieldOk c.timestamp = true → fieldOk c.log_level = true →
      fieldOk c.message = true → fieldOk c.app_name = true →
      fieldOk c.app_uuid = false →
      validateLogEntry dp (Candidate.obj c) =
        Except.error "Field 'app_uuid' is required and must be a string") ∧
    (fieldOk c.timestamp = true → fieldOk c.log_level = true →
      fieldOk c.message = true → fieldOk c.app_name = true →
      fieldOk c.app_uuid = true → dp (strOf c.timestamp) = false →
      validateLogEntry dp (Candidate.obj c) =
        Except.error "Timestamp must be a valid ISO 8601 date string") ∧
    (fieldOk c.timestamp = true → fieldOk c.log_level = true →
      fieldOk c.message = true → fieldOk c.app_name = true →
      fieldOk c.app_uuid = true → dp (strOf c.timestamp) = true →
      validateLogEntry dp (Candidate.obj c) = Except.ok ()) := by
  refine ⟨rfl, ?_, ?_, ?_, ?_, ?_, ?_, ?_⟩ <;>
    intros <;> simp [validateLogEntry, *]

/-- C5 witness: an entry whose five fields are all non-empty strings but
whose timestamp does not parse as a date fails with the distinct
invalid-timestamp-format error. -/
theorem validateLogEntry_fixedOrder_witness :
    validateLogEntry (fun _ => false)
      (Candidate.obj ⟨some (JsVal.str "not-a-date"), some (JsVal.str "INFO"),
        some (JsVal.str "hello"), some (JsVal.str "my-app"),
        some (JsVal.str "my-uuid")⟩) =
      Except.error "Timestamp must be a valid ISO 8601 date string" := by
  exact (validateLogEntry_fixedOrder (fun _ => false)
    ⟨some (JsVal.str "not-a-date"), some (JsVal.str "INFO"),
     some (JsVal.str "hello"), some (JsVal.str "my-app"),
     some (JsVal.str "my-uuid")⟩).2.2.2.2.2.2.1
    (by decide) (by decide) (by decide) (by decide) (by decide) rfl

/-- C6: for every entry with a missing, non-string, or empty value for one
of the five required fields, `log` fails with the field-specific
validation message of the first such field in check order, with an empty
event trace: zero transport invocations, no delays, so the validation
failure is never retried — for any options and any transport behaviour. -/
theorem log_validationBeforeNetwork (opts : RequiredOptions)
    (dp : String → Bool) (transport : Nat → TransportResult)
    (c : CandidateEntry) :
    (fieldOk c.timestamp = false →
      log opts dp transport (Candidate.obj c) =
        (Except.error "Field 'timestamp' is required and must be a string",
         [])) ∧
    (fieldOk c.timestamp = true → fieldOk c.log_level = false →
      log opts dp transport (Candidate.obj c) =
        (Except.error "Field 'log_level' is required and must be a string",
         [])) ∧
    (fieldOk c.timestamp = true → fieldOk c.log_level = true →
      fieldOk c.message = false →
      log opts dp transport (Candidate.obj c) =
        (Except.error "Field 'message' is required and must be a string",
         [])) ∧
    (fieldOk c.timestamp = true → fieldOk c.log_level = true →
      fieldOk c.message = true → fieldOk c.app_name = false →
      log opts dp transport (Candidate.obj c) =
        (Except.error "Field 'app_name' is required and must be a string",
         [])) ∧
    (fieldOk c.timestamp = true → fieldOk c.log_level = true →
      fieldOk c.message = true → fieldOk c.app_name = true →
      fieldOk c.app_uuid = false →
      log opts dp transport (Candidate.obj c) =
        (Except.error "Field 'app_uuid' is required and must be a string",
         [])) := by
  refine ⟨?_, ?_, ?_, ?_, ?_⟩ <;>
    intros <;> simp [log, validateLogEntry, *]

/-- C6 witness: an entry with an empty `app_name` makes `log` fail with
the `app_name`-specific message and an empty trace (zero transport
calls), for a transport that would always succeed. -/
theorem log_validationBeforeNetwork_witness :
    log optsDefault (fun _ => true) (fun _ => TransportResult.success 200)
      (Candidate.obj ⟨some (JsVal.str "2024-01-01T00:00:00Z"),
        some (JsVal.str "INFO"), some (JsVal.str "hello"),
        some (JsVal.str ""), some (JsVal.str "my-uuid")⟩) =
      (Except.error "Field 'app_name' is required and must be a string",
       []) := by
  exact (log_validationBeforeNetwork optsDefault (fun _ => true)
    (fun _ => TransportResult.success 200)
    ⟨some (JsVal.str "2024-01-01T00:00:00Z"), some (JsVal.str "INFO"),
     some (JsVal.str "hello"), some (JsVal.str ""),
     some (JsVal.str "my-uuid")⟩).2.2.2.1
    (by decide) (by decide) (by decide) (by decide)

/-- C7: `logBatch` applied to an empty collection fails immediately with
the fixed message and performs no network calls: the event trace is empty,
for any options, validator behaviour and transport behaviour. -/
theorem logBatch_empty (opts : RequiredOptions) (dp : String → Bool)
    (tb : Nat → Nat → TransportResult) :
    logBatch opts dp tb [] =
      (Except.error "Entries must be a non-empty array", []) := by
  rfl

/-- The batch pre-flight loop finds the first invalid entry: if every
entry before index `i` validates and the entry at `i` fails with message
`m`, it returns `i` (offset by the starting index) with `m`. -/
theorem firstInvalidAux_first (dp : String → Bool) :
    ∀ (entries : List Candidate) (off i : Nat) (m : String),
      (∀ j, j < i →
        validateLogEntry dp (entries.getD j Candidate.notObject) =
          Except.ok ()) →
      i < entries.length →
      validateLogEntry dp (entries.getD i Candidate.notObject) =
        Except.error m →
      firstInvalidAux dp entries off = some (off + i, m) := by
  intro entries
  induction entries with
  | nil => intro off i m _ hlen _; simp at hlen
  | cons e rest ih =>
    intro off i m hvalid hlen herr
    cases i with
    | zero =>
      simp only [List.getD_cons_zero] at herr
      simp [firstInvalidAux, herr]
    | succ i' =>
      have h0 : validateLogEntry dp e = Except.ok () := by
        simpa using hvalid 0 (by omega)
      simp only [List.getD_cons_succ] at herr
      have hrec := ih (off + 1) i' m
        (fun j hj => by simpa using hvalid (j + 1) (by omega))
        (by simpa using hlen) herr
      simp only [firstInvalidAux, h0]
      rw [hrec]
      congr 2
      omega

/-- C8: for every batch whose entry at index `i` is the first invalid one
(every earlier entry validates, the one at `i` fails with message `m`),
`logBatch` fails with an error reporting the zero-based index `i` together
with that entry's specific validation error, and its event trace is empty:
zero transport calls for any element of the batch, for any transport
behaviour — validation precedes all dispatch. -/
theorem logBatch_firstInvalidIndex (opts : RequiredOptions)
    (dp : String → Bool) (tb : Nat → Nat → TransportResult)
    (entries : List Candidate) (i : Nat) (m : String)
    (hvalid : ∀ j, j < i →
      validateLogEntry dp (entries.getD j Candidate.notObject) =
        Except.ok ())
    (hlen : i < entries.length)
    (herr : validateLogEntry dp (entries.getD i Candidate.notObject) =
      Except.error m) :
    logBatch opts dp tb entries = (Except.error (batchIndexMsg i m), []) := by
  have hne : entries.isEmpty = false := by
    cases entries
    · simp at hlen
    · rfl
  have hfia := firstInvalidAux_first dp entries 0 i m hvalid hlen herr
  rw [Nat.zero_add] at hfia
  simp [logBatch, hne, hfia]

/-- C8 witness: a three-entry batch whose element at index 2 has an empty
`app_name` fails with the message naming index 2 and the `app_name` field,
with an empty trace, even though the transport would always succeed. -/
theorem logBatch_firstInvalidIndex_witness :
    logBatch optsDefault (fun _ => true)
      (fun _ _ => TransportResult.success 200)
      [Candidate.obj ⟨some (JsVal.str "2024-01-01T00:00:00Z"),
          some (JsVal.str "INFO"), some (JsVal.str "a"),
          some (JsVal.str "app"), some (JsVal.str "u1")⟩,
       Candidate.obj ⟨some (JsVal.str "2024-01-01T00:00:01Z"),
          some (JsVal.str "WARN"), some (JsVal.str "b"),
          some (JsVal.str "app"), some (JsVal.str "u2")⟩,
       Candidate.obj ⟨some (JsVal.str "2024-01-01T00:00:02Z"),
          some (JsVal.str "ERROR"), some (JsVal.str "c"),
          some (JsVal.str ""), some (JsVal.str "u3")⟩] =
      (Except.error
        "Invalid log entry at index 2: Field 'app_name' is required and must be a string",
       []) := by
  have h := logBatch_firstInvalidIndex optsDefault (fun _ => true)
    (fun _ _ => TransportResult.success 200)
    [Candidate.obj ⟨some (JsVal.str "2024-01-01T00:00:00Z"),
        some (JsVal.str "INFO"), some (JsVal.str "a"),
        some (JsVal.str "app"), some (JsVal.str "u1")⟩,
     Candidate.obj ⟨some (JsVal.str "2024-01-01T00:00:01Z"),
        some (JsVal.str "WARN"), some (JsVal.str "b"),
        some (JsVal.str "app"), some (JsVal.str "u2")⟩,
     Candidate.obj ⟨some (JsVal.str "2024-01-01T00:00:02Z"),
        some (JsVal.str "ERROR"), some (JsVal.str "c"),
        some (JsVal.str ""), some (JsVal.str "u3")⟩]
    2 "Field 'app_name' is required and must be a string"
    (by intro j hj; interval_cases j <;> rfl)
    (by decide) (by rfl)
  exact h

/-- C10: constructor option defaulting treats every falsy supplied value
as absent.  A config constructed with `timeout: 0`, `retryAttempts: 0`,
`retryDelay: 0` and `baseUrl: ""` resolves to the defaults `5000`, `3`,
`1000` and the production endpoint; and such a client still waits 1000 ms
between attempts: with a transport that fails once then succeeds, its
trace is call, a 1000 ms delay, call.  The resolved options are a plain
immutable value. -/
theorem resolveOptions_falsyDefaults :
    resolveOptions
      { baseUrl := some "", timeout := some 0, retryAttempts := some 0,
        retryDelay := some 0, debug := some false } =
      { baseUrl := "https://ingst.logelse.com", timeout := 5000,
        retryAttempts := 3, retryDelay := 1000, debug := false } ∧
    (sendWithRetry
      (resolveOptions
        { baseUrl := some "", timeout := some 0, retryAttempts := some 0,
          retryDelay := some 0, debug := some false }) "/logs"
      (fun i => if i = 1 then TransportResult.failure errNet
                else TransportResult.success 200)).2 =
      [Event.call 1, Event.delay 1000, Event.call 2] := by
  exact ⟨rfl, rfl⟩

/-- The retry loop run under two debug settings produces the same result
and the same calls-and-delays trace: the flag only adds debug console
lines. -/
theorem sendWithRetryLoop_debug_eq (opts : RequiredOptions) (b₁ b₂ : Bool)
    (ep : String) (transport : Nat → TransportResult) :
    ∀ (r a : Nat) (le : String),
      (sendWithRetryLoop { opts with debug := b₁ } ep transport a r le).1 =
        (sendWithRetryLoop { opts with debug := b₂ } ep transport a r le).1 ∧
      callsAndDelays
          (sendWithRetryLoop { opts with debug := b₁ } ep transport a r le).2 =
        callsAndDelays
          (sendWithRetryLoop { opts with debug := b₂ } ep transport a r le).2 := by
  intro r
  induction r with
  | zero => intro a le; exact ⟨rfl, rfl⟩
  | succ r ih =>
    intro a le
    cases htr : transport a with
    | success s => simp [sendWithRetryLoop, htr]
    | failure e =>
      by_cases ha : a < opts.retryAttempts
      · have hrec := ih (a + 1) (handleError e)
        simp only [sendWithRetryLoop, htr]
        rw [if_pos (show a < RequiredOptions.retryAttempts
              { opts with debug := b₁ } from ha),
            if_pos (show a < RequiredOptions.retryAttempts
              { opts with debug := b₂ } from ha)]
        refine ⟨hrec.1, ?_⟩
        simp [hrec.2]
      · simp only [sendWithRetryLoop, htr]
        rw [if_neg (show ¬ a < RequiredOptions.retryAttempts
              { opts with debug := b₁ } from ha),
            if_neg (show ¬ a < RequiredOptions.retryAttempts
              { opts with debug := b₂ } from ha)]
        simp

/-- The batch aggregation of per-entry results depends only on the result
component of each dispatch. -/
theorem batchFoldl_eq_of_fst_eq
    (f g : Nat → Except String Unit × List Event)
    (hfg : ∀ j, (f j).1 = (g j).1) :
    ∀ (js : List Nat) (init : Except String Unit),
      (js.map f).foldl
        (fun acc r =>
          match acc with
          | Except.error m => Except.error m
          | Except.ok _ => r.1) init =
      (js.map g).foldl
        (fun acc r =>
          match acc with
          | Except.error m => Except.error m
          | Except.ok _ => r.1) init := by
  intro js
  induction js with
  | nil => intro init; rfl
  | cons j js ih =>
    intro init
    simp only [List.map_cons, List.foldl_cons]
    cases init with
    | error m => exact ih (Except.error m)
    | ok u => rw [hfg j]; exact ih (g j).1

/-- The calls-and-delays of the concatenated batch traces depend only on
the calls-and-delays of each dispatch trace. -/
theorem batchTrace_eq_of_callsAndDelays_eq
    (f g : Nat → Except String Unit × List Event)
    (hfg : ∀ j, callsAndDelays (f j).2 = callsAndDelays (g j).2) :
    ∀ js : List Nat,
      callsAndDelays ((js.map f).foldr (fun r acc => r.2 ++ acc) []) =
      callsAndDelays ((js.map g).foldr (fun r acc => r.2 ++ acc) []) := by
  intro js
  induction js with
  | nil => rfl
  | cons j js ih =>
    simp only [List.map_cons, List.foldr_cons, callsAndDelays_append]
    rw [hfg j, ih]

/-- C9: for every input and every transport behaviour, running an
operation (`sendWithRetry`, `log`, or `logBatch`) with `debug = true`
yields exactly the same outcome as running it with `debug = false` — the
same success or the same returned error — and the same transport calls and
delays; the debug flag only adds debug console lines to the trace. -/
theorem debug_flagPreservesOutcome (opts : RequiredOptions) (ep : String)
    (transport : Nat → TransportResult) (dp : String → Bool)
    (entry : Candidate) (tb : Nat → Nat → TransportResult)
    (entries : List Candidate) :
    ((sendWithRetry { opts with debug := true } ep transport).1 =
      (sendWithRetry { opts with debug := false } ep transport).1) ∧
    (callsAndDelays (sendWithRetry { opts with debug := true } ep transport).2 =
      callsAndDelays (sendWithRetry { opts with debug := false } ep transport).2) ∧
    ((log { opts with debug := true } dp transport entry).1 =
      (log { opts with debug := false } dp transport entry).1) ∧
    (callsAndDelays (log { opts with debug := true } dp transport entry).2 =
      callsAndDelays (log { opts with debug := false } dp transport entry).2) ∧
    ((logBatch { opts with debug := true } dp tb entries).1 =
      (logBatch { opts with debug := false } dp tb entries).1) ∧
    (callsAndDelays (logBatch { opts with debug := true } dp tb entries).2 =
      callsAndDelays (logBatch { opts with debug := false } dp tb entries).2) := by
  have hsend : ∀ t : Nat → TransportResult,
      (sendWithRetry { opts with debug := true } ep t).1 =
        (sendWithRetry { opts with debug := false } ep t).1 ∧
      callsAndDelays (sendWithRetry { opts with debug := true } ep t).2 =
        callsAndDelays (sendWithRetry { opts with debug := false } ep t).2 :=
    fun t => sendWithRetryLoop_debug_eq opts true false ep t
      opts.retryAttempts 1 "Unknown error"
  have hsendLogs : ∀ t : Nat → TransportResult,
      (sendWithRetry { opts with debug := true } "/logs" t).1 =
        (sendWithRetry { opts with debug := false } "/logs" t).1 ∧
      callsAndDelays (sendWithRetry { opts with debug := true } "/logs" t).2 =
        callsAndDelays (sendWithRetry { opts with debug := false } "/logs" t).2 :=
    fun t => sendWithRetryLoop_debug_eq opts true false "/logs" t
      opts.retryAttempts 1 "Unknown error"
  have hlog :
      (log { opts with debug := true } dp transport entry).1 =
        (log { opts with debug := false } dp transport entry).1 ∧
      callsAndDelays (log { opts with debug := true } dp transport entry).2 =
        callsAndDelays (log { opts with debug := false } dp transport entry).2 := by
    cases hv : validateLogEntry dp entry with
    | error m => simp [log, hv]
    | ok u => simpa [log, hv] using hsendLogs transport
  refine ⟨(hsend transport).1, (hsend transport).2, hlog.1, hlog.2, ?_, ?_⟩ <;>
  · by_cases hne : entries.isEmpty
    · simp [logBatch, hne]
    · cases hfi : firstInvalidAux dp entries 0 with
      | some im => simp [logBatch, hne, hfi]
      | none =>
        simp only [logBatch, hne, hfi, Bool.false_eq_true, if_neg]
        first
        | exact batchFoldl_eq_of_fst_eq _ _
            (fun j => (hsendLogs (tb j)).1) (List.range entries.length)
            (Except.ok ())
        | exact batchTrace_eq_of_callsAndDelays_eq _ _
            (fun j => (hsendLogs (tb j)).2) (List.range entries.length)

end Logelse
